import Mathlib

/-!
Verification of the data normalization and aggregation engine of the PFAS
dashboard (`dashboard_app_v5.py`).

The dashboard's core logic is shallowly embedded here: a pandas `DataFrame`
becomes a `List Row`, numeric cells become `Option Rat` (pandas `NaN` is
`none`, so missing values propagate explicitly instead of by IEEE rules),
the nullable integer year column becomes `Option Int`, and each vectorized
pandas operation becomes the corresponding row-wise pure function.  The
multi-key `sort_values` call (which pandas executes with a stable `lexsort`
when several keys are given) is embedded as `List.insertionSort`, which is
stable in the same sense and computes the same list, since a stable sort of
a list by a fixed total preorder is unique.
-/

namespace PfasDashboard

/-- Measurement row of the loaded table, after the type coercions of
`load_data` (lines 20-40): coordinates, year and value are nullable numbers,
the categorical columns are stripped strings. -/
structure Row where
  Locatie : String
  PFAS : String
  Bron : String
  Medium : String
  Sampletype : String
  Eenheid : String
  Jaar : Option Int
  Waarde : Option Rat
  Latitude : Option Rat
  Longitude : Option Rat
  LOQ_flag : Option Bool
deriving Repr, DecidableEq

/-! ## Coordinate sanitizer (`load_data`, lines 26-29) -/

/-- Embeds `(df["Latitude"].abs() > 90) | (df["Longitude"].abs() > 180)`:
a pandas comparison against `NaN` is `False`, so a missing coordinate never
triggers the mask. -/
def maskScaled (r : Row) : Bool :=
  (match r.Latitude with
    | some x => decide (90 < |x|)
    | none => false) ||
  (match r.Longitude with
    | some y => decide (180 < |y|)
    | none => false)

/-- Embeds the two `df.loc[mask_scaled, ...] = ... / 10000` assignments: the
mask is computed once, and on masked rows both coordinates are divided by
10000 (a missing coordinate stays missing, as `NaN / 10000` is `NaN`). -/
def sanitizeRow (r : Row) : Row :=
  if maskScaled r then
    { r with
      Latitude := r.Latitude.map (fun x => x / 10000)
      Longitude := r.Longitude.map (fun y => y / 10000) }
  else r

/-- Coordinate sanitizer applied to the whole table. -/
def sanitizeCoords (df : List Row) : List Row := df.map sanitizeRow

/-- Latitude cell within WGS84 range; a missing cell passes vacuously. -/
def latInRange : Option Rat → Bool
  | some x => decide (|x| ≤ 90)
  | none => true

/-- Longitude cell within WGS84 range; a missing cell passes vacuously. -/
def lonInRange : Option Rat → Bool
  | some y => decide (|y| ≤ 180)
  | none => true

/-- Property claimed of a sanitized row: both coordinates in WGS84 range, or
both marked missing. -/
def rowCoordsOk (r : Row) : Bool :=
  (latInRange r.Latitude && lonInRange r.Longitude) ||
  (r.Latitude == none && r.Longitude == none)

/-- Input-side bound under which one division by 10000 is guaranteed to land
an out-of-range coordinate back inside WGS84 range. -/
def coordsPreScaled (r : Row) : Bool :=
  (match r.Latitude with
    | some x => decide (|x| ≤ 900000)
    | none => true) &&
  (match r.Longitude with
    | some y => decide (|y| ≤ 1800000)
    | none => true)

/-! ## Year coercion (`load_data`, lines 32-33) -/

/-- Raw cell of the `Jaar` column as `pd.read_csv` delivers it: empty,
numeric, or text that does not denote a number. -/
inductive RawCell where
  | missing : RawCell
  | num : Rat → RawCell
  | unreadable : RawCell
deriving Repr, DecidableEq

/-- Embeds `pd.to_numeric(..., errors="coerce")`: a numeric cell keeps its
value, an empty or unreadable cell becomes missing (`NaN`), never zero. -/
def to_numeric_coerce : RawCell → Option Rat
  | .missing => none
  | .num q => some q
  | .unreadable => none

/-- Embeds `.astype("Int64")` on one float cell: `NaN` becomes `pd.NA`, an
integral float becomes the integer, and a fractional float makes pandas
raise `TypeError: cannot safely cast non-equivalent float64 to int64`. -/
def astypeInt64Cell : Option Rat → Except String (Option Int)
  | none => .ok none
  | some q =>
    if q.den = 1 then .ok (some q.num)
    else .error "cannot safely cast non-equivalent float64 to int64"

/-- Embeds `pd.to_numeric(df["Jaar"], errors="coerce").astype("Int64")` on
the whole column: the first fractional cell aborts the conversion. -/
def coerceJaar (cells : List RawCell) : Except String (List (Option Int)) :=
  (cells.map to_numeric_coerce).mapM astypeInt64Cell

/-! ## Unit normalizer (`make_bar_by_location` lines 62-69 and `tab_lijn`
lines 456-460, which run the identical statements) -/

/-- Embeds Python `str.lower()` characterwise (the unit spellings and the
literal `"nan"` compared against it are ASCII apart from `µ`, which both
Python and `Char.toLower` leave unchanged). -/
def lowerStr (s : String) : String := ⟨s.data.map Char.toLower⟩

/-- Embeds Python `str.strip()`: leading and trailing whitespace removed. -/
def trimStr (s : String) : String :=
  ⟨((s.data.dropWhile Char.isWhitespace).reverse.dropWhile
      Char.isWhitespace).reverse⟩

/-- Embeds `Eenheid.str.lower().isin(["ug/l", "µg/l"])` for one cell. -/
def ugMask (eenheid : String) : Bool :=
  lowerStr eenheid == "ug/l" || lowerStr eenheid == "µg/l"

/-- Row extended with the derived `Waarde_plot` column; the underlying raw
row is kept whole in `base`. -/
structure PlotRow where
  base : Row
  waarde_plot : Option Rat
deriving Repr, DecidableEq

/-- Embeds `plot_df["Waarde_plot"] = plot_df["Waarde"]` followed by
`plot_df.loc[mask_ug, "Waarde_plot"] = plot_df.loc[mask_ug, "Waarde"] * 1000`
(the guarding `if mask_ug.any()` only skips a no-op assignment, so the
row-wise meaning is unchanged).  Both normalization sites run exactly these
statements on a copy of their input. -/
def addWaardePlot (rows : List Row) : List PlotRow :=
  rows.map (fun r =>
    { base := r
      waarde_plot :=
        if ugMask r.Eenheid then r.Waarde.map (fun v => v * 1000)
        else r.Waarde })

/-- Embeds the location filter of `make_bar_by_location` (lines 56-60):
`notna` is vacuous on a string column, then the stripped name must be
nonempty and the lowercased name must not be the literal `"nan"`. -/
def locValid (r : Row) : Bool :=
  !(trimStr r.Locatie == "") && !(lowerStr r.Locatie == "nan")

/-- Rows of `plot_df` in `make_bar_by_location` once `Waarde_plot` has been
assigned (lines 52-69). -/
def make_bar_plot_df (df : List Row) : List PlotRow :=
  addWaardePlot (df.filter locValid)

/-- Embeds the `lijn_df` selection of `tab_lijn` (lines 449-454). -/
def lijnFilter (subset : List Row) (pfas loc med bron : String) : List Row :=
  subset.filter (fun r =>
    r.PFAS == pfas && r.Locatie == loc && r.Medium == med && r.Bron == bron)

/-- Rows of `lijn_df` once `Waarde_plot` has been assigned (lines 456-460). -/
def lijn_plot_df (subset : List Row) (pfas loc med bron : String) :
    List PlotRow :=
  addWaardePlot (lijnFilter subset pfas loc med bron)

/-! ## CSV export (`download_csv`, lines 45-46, applied to `subset`) -/

/-- Serialization of a nullable rational cell: pandas writes `NaN` as the
empty field. -/
def csvCellQ : Option Rat → String
  | some v => toString v
  | none => ""

/-- Serialization of a nullable integer cell. -/
def csvCellI : Option Int → String
  | some v => toString v
  | none => ""

/-- Serialization of a nullable boolean cell. -/
def csvCellB : Option Bool → String
  | some b => toString b
  | none => ""

/-- Header line of `df.to_csv(index=False)` for the measurement schema. -/
def csvHeader : String :=
  "Locatie,PFAS,Bron,Medium,Sampletype,Eenheid,Jaar,Waarde,Latitude,Longitude,LOQ_flag"

/-- Data line of `df.to_csv(index=False)` for one row: the raw stored
columns, and only those — the table never carries a `Waarde_plot` column. -/
def csvRow (r : Row) : String :=
  r.Locatie ++ "," ++ r.PFAS ++ "," ++ r.Bron ++ "," ++ r.Medium ++ "," ++
  r.Sampletype ++ "," ++ r.Eenheid ++ "," ++ csvCellI r.Jaar ++ "," ++
  csvCellQ r.Waarde ++ "," ++ csvCellQ r.Latitude ++ "," ++
  csvCellQ r.Longitude ++ "," ++ csvCellB r.LOQ_flag

/-- Lines of the exported CSV. -/
def csvLines (df : List Row) : List String := csvHeader :: df.map csvRow

/-- Embeds `download_csv`: the filtered subset serialized as delimited
text. -/
def download_csv (df : List Row) : String :=
  String.intercalate "\n" (csvLines df) ++ "\n"

/-! ## Substance priority ranker (`make_map`, lines 122-140) -/

/-- Fixed hand-curated priority list, verbatim from the source. -/
def pfas_priority : List String :=
  ["PFOS", "PFOA", "PFHxS", "PFNA", "PFHxA", "PFBS", "PFPeA", "PFPeS",
   "PFHpA", "PFHpS", "PFDA", "PFUnDA", "PFDoDA", "GenX", "HFPO-DA"]

/-- Embeds `priority_rank = {p: i for i, p in enumerate(pfas_priority)}`
together with `.map(priority_rank).fillna(default_rank)`: a listed substance
gets its index (the list has no duplicates, so first index and dictionary
index agree), an unlisted one the sentinel 9999. -/
def priority_rank (s : String) : Nat :=
  match pfas_priority.findIdx? (fun p => p == s) with
  | some i => i
  | none => 9999

/-! ## Within-group ordering (`make_map`, lines 161-169) -/

/-- Embeds `pd.to_numeric(tmp.get("Jaar", None), errors="coerce").fillna(-1)`. -/
def jaarSort (r : Row) : Int :=
  match r.Jaar with
  | some j => j
  | none => -1

/-- Embeds `pd.to_numeric(tmp.get("Waarde", None), errors="coerce").fillna(-1)`. -/
def waardeSort (r : Row) : Rat :=
  match r.Waarde with
  | some v => v
  | none => -1

/-- Comparator of the three-key `sort_values(by=["__pfas_rank",
"__jaar_sort", "__waarde_sort"], ascending=[True, False, False])`:
lexicographic on rank ascending, then sentinel-filled year descending, then
sentinel-filled value descending. -/
def rowLE (a b : Row) : Bool :=
  decide (priority_rank a.PFAS < priority_rank b.PFAS) ||
  (priority_rank a.PFAS == priority_rank b.PFAS &&
    (decide (jaarSort b < jaarSort a) ||
      (jaarSort a == jaarSort b &&
        (decide (waardeSort b < waardeSort a) ||
          waardeSort a == waardeSort b))))

/-- Propositional form of the comparator, for the sorting lemmas. -/
def sortRel (a b : Row) : Prop := rowLE a b = true

instance : DecidableRel sortRel := fun a b => by
  unfold sortRel; infer_instance

instance : IsTrans Row sortRel := by
  constructor
  intro a b c hab hbc
  have hiff : ∀ x y : Row, sortRel x y ↔
      priority_rank x.PFAS < priority_rank y.PFAS ∨
        (priority_rank x.PFAS = priority_rank y.PFAS ∧
          (jaarSort y < jaarSort x ∨
            (jaarSort x = jaarSort y ∧
              (waardeSort y < waardeSort x ∨ waardeSort x = waardeSort y)))) := by
    intro x y
    simp [sortRel, rowLE, Bool.or_eq_true, Bool.and_eq_true,
      decide_eq_true_eq, beq_iff_eq]
  rw [hiff] at hab hbc
  rw [hiff]
  rcases hab with hab | ⟨e1, hab⟩
  · rcases hbc with hbc | ⟨e2, hbc⟩
    · exact Or.inl (hab.trans hbc)
    · exact Or.inl (by rw [← e2]; exact hab)
  · rcases hbc with hbc | ⟨e2, hbc⟩
    · exact Or.inl (by rw [e1]; exact hbc)
    · refine Or.inr ⟨e1.trans e2, ?_⟩
      rcases hab with hj1 | ⟨ej1, hab⟩
      · rcases hbc with hj2 | ⟨ej2, hbc⟩
        · exact Or.inl (hj2.trans hj1)
        · exact Or.inl (by rw [← ej2]; exact hj1)
      · rcases hbc with hj2 | ⟨ej2, hbc⟩
        · exact Or.inl (by rw [ej1]; exact hj2)
        · refine Or.inr ⟨ej1.trans ej2, ?_⟩
          rcases hab with hw1 | hw1
          · rcases hbc with hw2 | hw2
            · exact Or.inl (hw2.trans hw1)
            · exact Or.inl (by rw [← hw2]; exact hw1)
          · rcases hbc with hw2 | hw2
            · exact Or.inl (by rw [hw1]; exact hw2)
            · exact Or.inr (hw1.trans hw2)

instance : IsTotal Row sortRel := by
  constructor
  intro a b
  have hiff : ∀ x y : Row, sortRel x y ↔
      priority_rank x.PFAS < priority_rank y.PFAS ∨
        (priority_rank x.PFAS = priority_rank y.PFAS ∧
          (jaarSort y < jaarSort x ∨
            (jaarSort x = jaarSort y ∧
              (waardeSort y < waardeSort x ∨ waardeSort x = waardeSort y)))) := by
    intro x y
    simp [sortRel, rowLE, Bool.or_eq_true, Bool.and_eq_true,
      decide_eq_true_eq, beq_iff_eq]
  rw [hiff, hiff]
  rcases lt_trichotomy (priority_rank a.PFAS) (priority_rank b.PFAS) with h | h | h
  · exact Or.inl (Or.inl h)
  · rcases lt_trichotomy (jaarSort a) (jaarSort b) with hj | hj | hj
    · exact Or.inr (Or.inr ⟨h.symm, Or.inl hj⟩)
    · rcases lt_trichotomy (waardeSort a) (waardeSort b) with hw | hw | hw
      · exact Or.inr (Or.inr ⟨h.symm, Or.inr ⟨hj.symm, Or.inl hw⟩⟩)
      · exact Or.inl (Or.inr ⟨h, Or.inr ⟨hj, Or.inr hw⟩⟩)
      · exact Or.inl (Or.inr ⟨h, Or.inr ⟨hj, Or.inl hw⟩⟩)
    · exact Or.inl (Or.inr ⟨h, Or.inl hj⟩)
  · exact Or.inr (Or.inl h)

/-- Embeds the multi-key `sort_values` call.  With several keys pandas sorts
by a stable lexicographic sort (`numpy.lexsort`); every stable sort of a
list by the same total preorder yields the same list, and insertion sort is
such a stable sort. -/
def sortGroup (g : List Row) : List Row := g.insertionSort sortRel

/-- Comparator the specification describes: year descending with a missing
year strictly lowest (so last), then value descending with a missing value
strictly lowest.  Used to compare the code's ordering against the spec. -/
def specYearLT : Option Int → Option Int → Prop
  | none, none => False
  | none, some _ => True
  | some _, none => False
  | some x, some y => x < y

instance : DecidableRel specYearLT := fun a b => by
  cases a <;> cases b <;> simp [specYearLT] <;> infer_instance

/-- Value part of the specification comparator, missing strictly lowest. -/
def specValLT : Option Rat → Option Rat → Prop
  | none, none => False
  | none, some _ => True
  | some _, none => False
  | some x, some y => x < y

instance : DecidableRel specValLT := fun a b => by
  cases a <;> cases b <;> simp [specValLT] <;> infer_instance

/-- Specification-side ordering of two rows in a location group. -/
def specLE (a b : Row) : Bool :=
  decide (priority_rank a.PFAS < priority_rank b.PFAS) ||
  (priority_rank a.PFAS == priority_rank b.PFAS &&
    (decide (specYearLT b.Jaar a.Jaar) ||
      (a.Jaar == b.Jaar &&
        (decide (specValLT b.Waarde a.Waarde) ||
          a.Waarde == b.Waarde))))

/-! ## Detail cap and remainder note (`make_map`, lines 171-194) -/

/-- Cap on detail rows per location, `max_rows = 80` in the source. -/
def max_rows : Nat := 80

/-- Embeds `show_tmp = tmp.head(max_rows)`: the detail rows exposed for one
location group. -/
def shownRows (g : List Row) : List Row := (sortGroup g).take max_rows

/-- Numbers interpolated into the remainder note: the note is emitted only
when `len(tmp) > max_rows`, and its text `"Toont {max_rows} van {len(tmp)}
metingen. Filter verder om minder te tonen."` carries exactly the pair
`(max_rows, len(tmp))`. -/
def moreNote (g : List Row) : Option (Nat × Nat) :=
  if max_rows < (sortGroup g).length then some (max_rows, (sortGroup g).length)
  else none

/-- Property the claim asserts of the remainder note: it states the exact
excess count, i.e. one of the numbers in the note equals the number of rows
beyond the cap. -/
def noteStatesExcess (g : List Row) : Bool :=
  match moreNote g with
  | some (a, b) =>
    a == (sortGroup g).length - max_rows || b == (sortGroup g).length - max_rows
  | none => true

/-! ## Map grouping (`make_map`, lines 146-151) and the filtered subset
(lines 327-329) -/

/-- Embeds `subset.dropna(subset=["Latitude", "Longitude"])`: the rows that
can be mapped. -/
def map_df (subset : List Row) : List Row :=
  subset.filter (fun r => r.Latitude.isSome && r.Longitude.isSome)

/-- Rows of one `(Locatie, Latitude, Longitude)` group of `make_map`. -/
def groupRows (mdf : List Row) (loc : String) (lat lon : Rat) : List Row :=
  mdf.filter (fun r =>
    r.Locatie == loc && r.Latitude == some lat && r.Longitude == some lon)

/-- Embeds `subset = working_df.copy()` followed by
`subset.dropna(subset=["Waarde"])`: every row with a missing value is
dropped before any view is computed. -/
def subsetOf (working_df : List Row) : List Row :=
  working_df.filter (fun r => r.Waarde.isSome)

/-! ## Time-series validity filter (`tab_lijn`, lines 413-418) -/

/-- Grouping key of the validity filter. -/
def comboKey (r : Row) : String × String × String × String :=
  (r.PFAS, r.Locatie, r.Medium, r.Bron)

/-- Rows of one combination group. -/
def comboRows (df : List Row) (k : String × String × String × String) :
    List Row :=
  df.filter (fun r => decide (comboKey r = k))

/-- Embeds `groupby([...])["Jaar"].nunique()`: pandas `nunique` counts the
distinct non-missing cells, so rows whose `Jaar` is `pd.NA` are dropped by
`filterMap` before deduplication. -/
def nuniqueJaar (df : List Row) (k : String × String × String × String) :
    Nat :=
  ((comboRows df k).filterMap (fun r => r.Jaar)).dedup.length

/-- Embeds `valid_groups = valid_groups[valid_groups["Jaar"] >= 2]` over the
keys produced by the groupby: the combinations offered for time-series
display. -/
def valid_groups (df : List Row) :
    List (String × String × String × String) :=
  ((df.map comboKey).dedup).filter (fun k => decide (2 ≤ nuniqueJaar df k))

/-! ## Concrete rows used to instantiate the theorems -/

/-- Template measurement row with unexceptional field values. -/
def baseRow : Row :=
  { Locatie := "LocA", PFAS := "PFOS", Bron := "RWS", Medium := "water",
    Sampletype := "s", Eenheid := "ng/l", Jaar := some 2019,
    Waarde := some 5, Latitude := some 51, Longitude := some 4,
    LOQ_flag := some false }

/-- Row whose scaled latitude is 10000 times an out-of-range latitude. -/
def c1Row : Row :=
  { baseRow with Latitude := some 910000, Longitude := some 30000 }

/-- Row with coordinates in the scaled-by-10000 representation of the
source comment (`bv 514425`). -/
def c1wRow : Row :=
  { baseRow with Latitude := some 514425, Longitude := some 38000 }

/-- Row with an out-of-range latitude next to an in-range longitude. -/
def r95 : Row := { baseRow with Latitude := some 95, Longitude := some 50 }

/-- Rational 2019.5, built without kernel-opaque `Rat` arithmetic. -/
def halfYear : Rat := ⟨4039, 2, by decide, by decide⟩

/-- Row carrying a value in micrograms per liter. -/
def ugRow : Row :=
  { baseRow with Eenheid := "µg/L", Waarde := some 3 }

/-- The plot row `make_bar_by_location` derives from `ugRow`. -/
def ugPlot : PlotRow := ⟨ugRow, (some (3 : Rat)).map (fun v => v * 1000)⟩

/-- Three-row table of the specification's end-to-end example. -/
def wdf3 : List Row :=
  [ { baseRow with Jaar := some 2019, Waarde := some 5 },
    { baseRow with Jaar := some 2020, Waarde := some 7 },
    { baseRow with PFAS := "PFOA", Jaar := some 2020, Waarde := some 3 } ]

/-- Row with a missing year. -/
def yearlessRow : Row := { baseRow with Jaar := none }

/-- Row with a missing value. -/
def noValueRow : Row := { baseRow with Waarde := none }

/-- Unlisted substance, missing year and missing value. -/
def c7r1 : Row := { baseRow with PFAS := "X", Jaar := none, Waarde := none }

/-- Same substance as `c7r1` but with the pre-sentinel year `-2`. -/
def c7r2 : Row := { baseRow with PFAS := "X", Jaar := some (-2), Waarde := none }

/-- Group of 81 identical rows: one more than the detail cap. -/
def c2Group : List Row := List.replicate 81 baseRow

/-! ## Helper lemmas -/

/-- Division by 10000 maps a coordinate bounded by `c * 10000` into the band
of width `c`. -/
theorem abs_div_10000_le {x c : Rat} (h : |x| ≤ c * 10000) : |x / 10000| ≤ c := by
  rw [abs_div, abs_of_nonneg (by norm_num : (0 : Rat) ≤ 10000),
    div_le_iff₀ (by norm_num : (0 : Rat) < 10000)]
  exact h

/-- Row-wise form of the amended sanitizer bound. -/
theorem sanitizeRow_ok {r : Row} (h : coordsPreScaled r = true) :
    rowCoordsOk (sanitizeRow r) = true := by
  by_cases hm : maskScaled r = true
  · cases hx : r.Latitude with
    | none =>
      cases hy : r.Longitude with
      | none =>
        simp [rowCoordsOk, sanitizeRow, hm, latInRange, lonInRange, hx, hy]
      | some y =>
        simp only [coordsPreScaled, hx, hy, Bool.and_eq_true, decide_eq_true_eq] at h
        simp [rowCoordsOk, sanitizeRow, hm, latInRange, lonInRange, hx, hy]
        exact abs_div_10000_le (by linarith [h.2])
    | some x =>
      simp only [coordsPreScaled, hx, Bool.and_eq_true, decide_eq_true_eq] at h
      cases hy : r.Longitude with
      | none =>
        simp [rowCoordsOk, sanitizeRow, hm, latInRange, lonInRange, hx, hy]
        exact abs_div_10000_le (by linarith [h.1])
      | some y =>
        rw [hy] at h
        simp only [decide_eq_true_eq] at h
        simp [rowCoordsOk, sanitizeRow, hm, latInRange, lonInRange, hx, hy]
        exact ⟨abs_div_10000_le (by linarith [h.1]),
          abs_div_10000_le (by linarith [h.2])⟩
  · have hmf : maskScaled r = false := by
      revert hm
      cases maskScaled r <;> simp
    have : sanitizeRow r = r := by simp [sanitizeRow, hmf]
    rw [this]
    cases hx : r.Latitude with
    | none =>
      cases hy : r.Longitude with
      | none => simp [rowCoordsOk, latInRange, lonInRange, hx, hy]
      | some y =>
        simp only [maskScaled, hx, hy, Bool.or_eq_false_iff,
          decide_eq_false_iff_not, not_lt] at hmf
        simp [rowCoordsOk, latInRange, lonInRange, hx, hy, hmf.2]
    | some x =>
      cases hy : r.Longitude with
      | none =>
        simp only [maskScaled, hx, hy, Bool.or_eq_false_iff,
          decide_eq_false_iff_not, not_lt] at hmf
        simp [rowCoordsOk, latInRange, lonInRange, hx, hy, hmf.1]
      | some y =>
        simp only [maskScaled, hx, hy, Bool.or_eq_false_iff,
          decide_eq_false_iff_not, not_lt] at hmf
        simp [rowCoordsOk, latInRange, lonInRange, hx, hy, hmf.1, hmf.2]

/-- Unfolded propositional description of the sort comparator. -/
theorem sortRel_iff (a b : Row) :
    sortRel a b ↔
      priority_rank a.PFAS < priority_rank b.PFAS ∨
        (priority_rank a.PFAS = priority_rank b.PFAS ∧
          (jaarSort b < jaarSort a ∨
            (jaarSort a = jaarSort b ∧
              (waardeSort b < waardeSort a ∨ waardeSort a = waardeSort b)))) := by
  simp [sortRel, rowLE, Bool.or_eq_true, Bool.and_eq_true, decide_eq_true_eq,
    beq_iff_eq]

/-- Rank of a substance outside the priority list. -/
theorem priority_rank_of_not_mem {s : String} (hs : s ∉ pfas_priority) :
    priority_rank s = 9999 := by
  have hnone : pfas_priority.findIdx? (fun p => p == s) = none := by
    rw [List.findIdx?_eq_none_iff]
    intro x hx
    simp only [beq_eq_false_iff_ne, ne_eq]
    intro he
    exact hs (he ▸ hx)
  simp [priority_rank, hnone]

/-- Every plot row of `addWaardePlot` carries an untouched input row in
`base`, and its derived value is determined by that row alone. -/
theorem addWaardePlot_spec {rows : List Row} {p : PlotRow}
    (h : p ∈ addWaardePlot rows) :
    p.base ∈ rows ∧
      p.waarde_plot =
        (if ugMask p.base.Eenheid then p.base.Waarde.map (fun v => v * 1000)
         else p.base.Waarde) := by
  obtain ⟨r, hr, rfl⟩ := List.mem_map.mp h
  exact ⟨hr, rfl⟩

/-- Membership characterization of `valid_groups`, in terms of occurrence
and the distinct-year score. -/
theorem mem_valid_groups_iff (df : List Row)
    (k : String × String × String × String) :
    k ∈ valid_groups df ↔ k ∈ df.map comboKey ∧ 2 ≤ nuniqueJaar df k := by
  simp [valid_groups, List.mem_filter, List.mem_dedup]

/-- A combination that occurs nowhere has no rows. -/
theorem comboRows_eq_nil_of_not_mem {df : List Row}
    {k : String × String × String × String} (h : k ∉ df.map comboKey) :
    comboRows df k = [] := by
  rw [comboRows, List.filter_eq_nil_iff]
  intro r hr
  simp only [decide_eq_true_eq]
  intro he
  exact h (List.mem_map.mpr ⟨r, hr, he⟩)

/-- A distinct-year score of at least 2 forces the combination to occur. -/
theorem mem_of_two_le_nuniqueJaar {df : List Row}
    {k : String × String × String × String} (h : 2 ≤ nuniqueJaar df k) :
    k ∈ df.map comboKey := by
  by_contra hn
  rw [nuniqueJaar, comboRows_eq_nil_of_not_mem hn] at h
  simp at h

/-- A row with a missing year leaves every distinct-year score unchanged. -/
theorem nuniqueJaar_cons_none {df : List Row} {r : Row}
    {k : String × String × String × String} (hr : r.Jaar = none) :
    nuniqueJaar (r :: df) k = nuniqueJaar df k := by
  unfold nuniqueJaar comboRows
  rw [List.filter_cons]
  by_cases h : comboKey r = k
  · simp [h, List.filterMap_cons, hr]
  · simp [h]

/-! ## Claim theorems -/

/-- C1, counterexample: the claim that after the Coordinate Sanitizer every
row satisfies the WGS84 bounds or has both coordinates missing fails on the
concrete one-row table whose latitude is 910000: one division by 10000
leaves latitude 91, which is neither in range nor missing. -/
theorem sanitizer_bounds_counterexample :
    ¬ (∀ r ∈ sanitizeCoords [c1Row], rowCoordsOk r = true) := by
  intro h
  have hm : maskScaled c1Row = true := by decide
  have hs : sanitizeRow c1Row =
      { baseRow with Latitude := some 91, Longitude := some 3 } := by
    simp only [sanitizeRow, hm]
    simp [c1Row, baseRow, Row.mk.injEq]
    norm_num
  have := h (sanitizeRow c1Row) (by simp [sanitizeCoords])
  rw [hs] at this
  exact absurd this (by decide)

/-- C1, amended: on every input table whose present coordinates satisfy
`|latitude| ≤ 900000` and `|longitude| ≤ 1800000` (that is, out-of-range
cells are at worst a valid coordinate scaled by 10000), the Coordinate
Sanitizer leaves every row with its present coordinates inside WGS84 range
or missing, and it maps no present coordinate to missing and no missing
coordinate to a value. -/
theorem sanitizer_bounds_amended (df : List Row)
    (h : ∀ r ∈ df, coordsPreScaled r = true) :
    (∀ r ∈ sanitizeCoords df, rowCoordsOk r = true) ∧
      (∀ r : Row,
        ((sanitizeRow r).Latitude = none ↔ r.Latitude = none) ∧
        ((sanitizeRow r).Longitude = none ↔ r.Longitude = none)) := by
  constructor
  · intro r hr
    obtain ⟨s, hs, rfl⟩ := List.mem_map.mp hr
    exact sanitizeRow_ok (h s hs)
  · intro r
    by_cases hm : maskScaled r = true
    · simp [sanitizeRow, hm]
    · simp [sanitizeRow, hm]

/-- C1, witness: the amended sanitizer bound applied to the one-row table
with the scaled coordinates (514425, 38000) from the source comment. -/
theorem sanitizer_bounds_amended_witness :
    (∀ r ∈ [c1wRow], coordsPreScaled r = true) ∧
      (∀ r ∈ sanitizeCoords [c1wRow], rowCoordsOk r = true) :=
  ⟨by decide, (sanitizer_bounds_amended [c1wRow] (by decide)).1⟩

/-- C8, confirmed: coordinate rescaling is row-atomic.  Whenever a row has a
present latitude with `|latitude| > 90` or a present longitude with
`|longitude| > 180`, both of its coordinates are divided by 10000, and every
row whose present coordinates are already in range is left untouched. -/
theorem sanitizer_row_atomic (r : Row) :
    (((∃ x, r.Latitude = some x ∧ 90 < |x|) ∨
        (∃ y, r.Longitude = some y ∧ 180 < |y|)) →
      (sanitizeRow r).Latitude = r.Latitude.map (fun x => x / 10000) ∧
      (sanitizeRow r).Longitude = r.Longitude.map (fun y => y / 10000)) ∧
    ((latInRange r.Latitude = true ∧ lonInRange r.Longitude = true) →
      sanitizeRow r = r) := by
  constructor
  · intro hout
    have hm : maskScaled r = true := by
      rcases hout with ⟨x, hx, h90⟩ | ⟨y, hy, h180⟩
      · simp [maskScaled, hx, h90]
      · simp [maskScaled, hy, h180]
    simp [sanitizeRow, hm]
  · intro ⟨hlat, hlon⟩
    have hm : maskScaled r = false := by
      cases hx : r.Latitude with
      | none =>
        cases hy : r.Longitude with
        | none => simp [maskScaled, hx, hy]
        | some y =>
          rw [hy] at hlon
          simp only [lonInRange, decide_eq_true_eq] at hlon
          simp [maskScaled, hx, hy, not_lt.mpr hlon]
      | some x =>
        rw [hx] at hlat
        simp only [latInRange, decide_eq_true_eq] at hlat
        cases hy : r.Longitude with
        | none => simp [maskScaled, hx, hy, not_lt.mpr hlat]
        | some y =>
          rw [hy] at hlon
          simp only [lonInRange, decide_eq_true_eq] at hlon
          simp [maskScaled, hx, hy, not_lt.mpr hlat, not_lt.mpr hlon]
    simp [sanitizeRow, hm]

/-- C8, witness: the row with latitude 95 and in-range longitude 50 has both
coordinates divided by 10000 together. -/
theorem sanitizer_row_atomic_witness :
    (sanitizeRow r95).Latitude = (some (95 : Rat)).map (fun x => x / 10000) ∧
      (sanitizeRow r95).Longitude = (some (50 : Rat)).map (fun y => y / 10000) :=
  (sanitizer_row_atomic r95).1 (Or.inl ⟨95, rfl, by decide⟩)

/-- C3, code bug: year coercion is claimed total with fractional years
becoming missing, but `pd.to_numeric(...).astype("Int64")` parses the
fractional cell 2019.5 and then raises while casting it, so `load_data`
aborts instead of storing a missing year.  Unparsable and integral cells
behave as claimed. -/
theorem year_coercion_raises_on_fractional :
    coerceJaar [RawCell.num halfYear] =
      Except.error "cannot safely cast non-equivalent float64 to int64" ∧
    coerceJaar [RawCell.unreadable] = Except.ok [none] ∧
    coerceJaar [RawCell.num 2019] = Except.ok [some 2019] :=
  ⟨rfl, rfl, rfl⟩

/-- C4, confirmed: in both the bar-chart path and the time-series path, the
derived display value equals the raw value times 1000 exactly when the
lowercased unit label is a micrograms-per-liter spelling (`"ug/l"` or the
Unicode-mu `"µg/l"`), and equals the raw value unchanged for every other
unit label; the condition depends on the unit label only, never on the
value. -/
theorem unit_normalization_gated_by_label (df : List Row) (p : PlotRow)
    (v : Rat)
    (hp : p ∈ make_bar_plot_df df ∨
      ∃ pf lo me br, p ∈ lijn_plot_df df pf lo me br)
    (hv : p.base.Waarde = some v) :
    ((lowerStr p.base.Eenheid = "ug/l" ∨ lowerStr p.base.Eenheid = "µg/l") →
      p.waarde_plot = some (v * 1000)) ∧
    (¬ (lowerStr p.base.Eenheid = "ug/l" ∨ lowerStr p.base.Eenheid = "µg/l") →
      p.waarde_plot = some v) := by
  have hform : p.waarde_plot =
      (if ugMask p.base.Eenheid then p.base.Waarde.map (fun w => w * 1000)
       else p.base.Waarde) := by
    rcases hp with hp | ⟨pf, lo, me, br, hp⟩
    · exact (addWaardePlot_spec hp).2
    · exact (addWaardePlot_spec hp).2
  have hmask : ugMask p.base.Eenheid = true ↔
      (lowerStr p.base.Eenheid = "ug/l" ∨ lowerStr p.base.Eenheid = "µg/l") := by
    simp [ugMask]
  constructor
  · intro hu
    rw [hform, if_pos (hmask.mpr hu), hv]
    rfl
  · intro hu
    rw [hform, if_neg ?h, hv]
    case h =>
      intro hc
      exact hu (hmask.mp hc)

/-- C4, witness: the bar-chart path turns the value 3 of a row labeled
`"µg/L"` into the display value `3 * 1000`. -/
theorem unit_normalization_gated_by_label_witness :
    ugPlot.waarde_plot = some ((3 : Rat) * 1000) :=
  (unit_normalization_gated_by_label [ugRow] ugPlot 3
    (Or.inl (.head _)) rfl).1 (Or.inr (by decide))

/-- C5, confirmed: unit normalization never mutates the stored data.  Every
plot row of the bar-chart and time-series computations carries an unchanged
member of the input table in `base` (the derived value lives only in the
separate `waarde_plot` field), and the CSV export serializes exactly the raw
columns: its value field is the raw `Waarde`, with the unit label and all
other stored fields untouched. -/
theorem export_preserves_raw_values (df : List Row) :
    (∀ p ∈ make_bar_plot_df df, p.base ∈ df) ∧
    (∀ pf lo me br, ∀ p ∈ lijn_plot_df df pf lo me br, p.base ∈ df) ∧
    (download_csv df =
      String.intercalate "\n" (csvHeader :: df.map csvRow) ++ "\n") ∧
    (∀ r ∈ df, ∀ v : Rat, r.Waarde = some v →
      csvRow r =
        r.Locatie ++ "," ++ r.PFAS ++ "," ++ r.Bron ++ "," ++ r.Medium ++
        "," ++ r.Sampletype ++ "," ++ r.Eenheid ++ "," ++ csvCellI r.Jaar ++
        "," ++ toString v ++ "," ++ csvCellQ r.Latitude ++ "," ++
        csvCellQ r.Longitude ++ "," ++ csvCellB r.LOQ_flag) := by
  refine ⟨?_, ?_, rfl, ?_⟩
  · intro p hp
    exact List.mem_of_mem_filter ((addWaardePlot_spec hp).1)
  · intro pf lo me br p hp
    exact List.mem_of_mem_filter ((addWaardePlot_spec hp).1)
  · intro r _ v hv
    rw [csvRow, hv]
    rfl

/-- C5, witness: the exported line of the micrograms-per-liter row carries
its raw value 3, not the normalized 3000. -/
theorem export_preserves_raw_values_witness :
    csvRow ugRow =
      ugRow.Locatie ++ "," ++ ugRow.PFAS ++ "," ++ ugRow.Bron ++ "," ++
      ugRow.Medium ++ "," ++ ugRow.Sampletype ++ "," ++ ugRow.Eenheid ++
      "," ++ csvCellI ugRow.Jaar ++ "," ++ toString (3 : Rat) ++ "," ++
      csvCellQ ugRow.Latitude ++ "," ++ csvCellQ ugRow.Longitude ++ "," ++
      csvCellB ugRow.LOQ_flag :=
  (export_preserves_raw_values [ugRow]).2.2.2 ugRow (.head _) 3 rfl

/-- C2, counterexample: on a location group of 81 rows the remainder note is
present, but the numbers it states are the cap 80 and the total 81 — not the
excess count 1 (the number of rows beyond the 80 shown), as the claim
asserts. -/
theorem detail_note_counterexample :
    moreNote c2Group = some (80, 81) ∧ noteStatesExcess c2Group = false := by
  constructor <;> decide

/-- C2, amended: every location group exposes at most the first 80 ordered
rows, the remainder note is present exactly when the group's true row count
exceeds 80, and the note then states the cap 80 together with the exact
total row count (from which the excess is the difference). -/
theorem detail_cap_amended (g : List Row) :
    (shownRows g).length ≤ max_rows ∧
    shownRows g = (sortGroup g).take max_rows ∧
    ((moreNote g).isSome ↔ max_rows < g.length) ∧
    (∀ a b, moreNote g = some (a, b) → a = max_rows ∧ b = g.length) := by
  refine ⟨?_, rfl, ?_, ?_⟩
  · simp only [shownRows, List.length_take]
    omega
  · by_cases h : max_rows < g.length
    · simp [moreNote, sortGroup, List.length_insertionSort, h]
    · simp [moreNote, sortGroup, List.length_insertionSort, h]
  · intro a b hab
    by_cases h : max_rows < g.length
    · simp only [moreNote, sortGroup, List.length_insertionSort, h,
        if_true, Option.some.injEq, Prod.mk.injEq] at hab
      exact ⟨hab.1.symm, hab.2.symm⟩
    · simp [moreNote, sortGroup, List.length_insertionSort, h] at hab

/-- C2, witness: the amended cap statement applied to the 81-row group. -/
theorem detail_cap_amended_witness :
    80 = max_rows ∧ 81 = c2Group.length :=
  (detail_cap_amended c2Group).2.2.2 80 81 (by decide)

/-- C6, confirmed: a (substance, location, medium, source) combination is in
the valid-combination set exactly when its number of distinct non-missing
years in the filtered subset is at least 2, and adding a row with a missing
year changes no membership in that set. -/
theorem valid_groups_iff_two_distinct_years (df : List Row)
    (k : String × String × String × String) :
    (k ∈ valid_groups df ↔
      2 ≤ ((comboRows df k).filterMap (fun r => r.Jaar)).toFinset.card) ∧
    (∀ r : Row, r.Jaar = none →
      (k ∈ valid_groups (r :: df) ↔ k ∈ valid_groups df)) := by
  constructor
  · rw [mem_valid_groups_iff, List.card_toFinset]
    constructor
    · rintro ⟨_, h2⟩
      exact h2
    · intro h2
      exact ⟨mem_of_two_le_nuniqueJaar h2, h2⟩
  · intro r hr
    rw [mem_valid_groups_iff, mem_valid_groups_iff, nuniqueJaar_cons_none hr]
    simp only [List.map_cons, List.mem_cons]
    constructor
    · rintro ⟨hm | hm, h2⟩
      · exact ⟨mem_of_two_le_nuniqueJaar h2, h2⟩
      · exact ⟨hm, h2⟩
    · rintro ⟨hm, h2⟩
      exact ⟨Or.inr hm, h2⟩

/-- C6, witness: on the three-row example table, prepending a row with a
missing year leaves membership of the qualifying combination unchanged. -/
theorem valid_groups_iff_witness :
    (("PFOS", "LocA", "water", "RWS") ∈ valid_groups (yearlessRow :: wdf3) ↔
      ("PFOS", "LocA", "water", "RWS") ∈ valid_groups wdf3) :=
  (valid_groups_iff_two_distinct_years wdf3 ("PFOS", "LocA", "water", "RWS")).2
    yearlessRow rfl

/-- C7, counterexample: the claim that a missing year sorts as lowest fails,
because the code fills a missing year with the sentinel `-1`: in a group
holding one row with year `-2` and one with a missing year, the code places
the missing-year row first, while the claimed ordering (missing strictly
lowest, year descending) demands it last. -/
theorem group_order_counterexample :
    sortGroup [c7r2, c7r1] = [c7r1, c7r2] ∧
    ¬ List.Pairwise (fun a b => specLE a b = true) (sortGroup [c7r2, c7r1]) := by
  constructor <;> decide

/-- C7, amended: within every location group the measurements are ordered by
substance priority rank ascending, then year descending after a missing year
is replaced by the sentinel `-1`, then value descending after a missing
value is replaced by the sentinel `-1` (so missing entries sort last
whenever all present years and values exceed `-1`); the output is a
permutation of the group, and ties after all three keys keep their stable
relative order. -/
theorem group_order_amended (g : List Row) :
    (sortGroup g).Perm g ∧
    List.Pairwise sortRel (sortGroup g) ∧
    (∀ a b : Row, sortRel a b ↔
      priority_rank a.PFAS < priority_rank b.PFAS ∨
        (priority_rank a.PFAS = priority_rank b.PFAS ∧
          (jaarSort b < jaarSort a ∨
            (jaarSort a = jaarSort b ∧
              (waardeSort b < waardeSort a ∨ waardeSort a = waardeSort b))))) ∧
    (∀ r : Row, (r.Jaar = none → jaarSort r = -1) ∧
      (r.Waarde = none → waardeSort r = -1)) ∧
    (∀ c : List Row, c.Pairwise sortRel → c.Sublist g →
      c.Sublist (sortGroup g)) := by
  refine ⟨List.perm_insertionSort sortRel g,
    List.sorted_insertionSort sortRel g, sortRel_iff, ?_, ?_⟩
  · intro r
    exact ⟨fun h => by simp [jaarSort, h], fun h => by simp [waardeSort, h]⟩
  · intro c hc hsub
    exact List.sublist_insertionSort hc hsub

/-- C7, witness: stability of the group ordering on a two-row group of tied
rows. -/
theorem group_order_amended_witness :
    List.Sublist [baseRow, baseRow] (sortGroup [baseRow, baseRow]) :=
  (group_order_amended [baseRow, baseRow]).2.2.2.2 [baseRow, baseRow]
    (by decide) (List.Sublist.refl _)

/-- C9, confirmed: the priority ranker gives each of the 15 listed substance
codes its index as rank, gives every unlisted substance the sentinel rank
9999 (strictly above every explicit rank, so listed substances sort strictly
before unlisted ones), and the rank-driven ordering excludes no row: the
sorted group is a permutation of the group. -/
theorem priority_ranker_spec :
    (∀ i : Fin pfas_priority.length,
      priority_rank (pfas_priority.get i) = i) ∧
    (∀ s, s ∉ pfas_priority → priority_rank s = 9999) ∧
    (∀ s ∈ pfas_priority, ∀ t, t ∉ pfas_priority →
      priority_rank s < priority_rank t) ∧
    (∀ g : List Row, (sortGroup g).Perm g) := by
  have hmem : ∀ s ∈ pfas_priority, priority_rank s < 9999 := by decide
  refine ⟨by decide, ?_, ?_, fun g => List.perm_insertionSort sortRel g⟩
  · intro s hs
    exact priority_rank_of_not_mem hs
  · intro s hs t ht
    rw [priority_rank_of_not_mem ht]
    exact hmem s hs

/-- C9, witness: the listed substance PFOS ranks strictly before the
unlisted code PFXX. -/
theorem priority_ranker_spec_witness :
    priority_rank "PFOS" < priority_rank "PFXX" :=
  priority_ranker_spec.2.2.1 "PFOS" (by decide) "PFXX" (by decide)

/-- C10, confirmed: the filtered subset drops every row whose value is
missing before any view is produced, so no missing-value row reaches the
map rows, the location groups and their capped listings, the bar chart, the
time-series selection, or the exported CSV (whose lines are exactly the
serialized subset rows). -/
theorem subset_excludes_missing_values (df : List Row) :
    (∀ r ∈ subsetOf df, r.Waarde ≠ none) ∧
    (∀ r ∈ map_df (subsetOf df), r.Waarde ≠ none) ∧
    (∀ loc lat lon, ∀ r ∈ groupRows (map_df (subsetOf df)) loc lat lon,
      r.Waarde ≠ none) ∧
    (∀ loc lat lon,
      ∀ r ∈ shownRows (groupRows (map_df (subsetOf df)) loc lat lon),
      r.Waarde ≠ none) ∧
    (∀ p ∈ make_bar_plot_df (subsetOf df), p.base.Waarde ≠ none) ∧
    (∀ pf lo me br, ∀ r ∈ lijnFilter (subsetOf df) pf lo me br,
      r.Waarde ≠ none) ∧
    (csvLines (subsetOf df) = csvHeader :: (subsetOf df).map csvRow) := by
  have hsub : ∀ r ∈ subsetOf df, r.Waarde ≠ none := by
    intro r hr
    have h := (List.mem_filter.mp hr).2
    rw [Option.isSome_iff_ne_none] at h
    exact h
  refine ⟨hsub, ?_, ?_, ?_, ?_, ?_, rfl⟩
  · intro r hr
    exact hsub r (List.mem_of_mem_filter hr)
  · intro loc lat lon r hr
    exact hsub r (List.mem_of_mem_filter (List.mem_of_mem_filter hr))
  · intro loc lat lon r hr
    have h1 := (List.take_sublist max_rows _).subset hr
    have h2 := (List.mem_insertionSort sortRel).mp h1
    exact hsub r (List.mem_of_mem_filter (List.mem_of_mem_filter h2))
  · intro p hp
    exact hsub _ (List.mem_of_mem_filter ((addWaardePlot_spec hp).1))
  · intro pf lo me br r hr
    exact hsub r (List.mem_of_mem_filter hr)

/-- C10, witness: in a table holding one missing-value row and one complete
row, the complete row survives into the subset and indeed has a value. -/
theorem subset_excludes_missing_values_witness : baseRow.Waarde ≠ none :=
  (subset_excludes_missing_values [noValueRow, baseRow]).1 baseRow (by decide)

end PfasDashboard
